import Mathlib

/-
Verification development for the pivot-table module of the excelize
spreadsheet library (pivotTable.go).  The Go code is shallowly embedded:
pure helpers become Lean functions, the mutable File document becomes an
explicit state record threaded through the operations, and fallible Go
functions returning (value, error) become Except.  Machine integers only
ever hold small non-negative counts and coordinates here, so they are
modelled as Nat (the one Go value that can be -1, the index sentinel of
inStrSlice, is modelled as Int).  Go string manipulation (strings.Split,
strings.Replace, strings.Contains, strings.TrimPrefix) is modelled by
structurally recursive functions on character lists with the same
semantics, so that every definition evaluates inside the kernel.
Collaborators of pivotTable.go that are not part of the given source
(coordinate parsing primitives, cell reads, relationship and content-type
registration) are modelled from the specification and marked as such in
their doc comments.
-/

deriving instance DecidableEq for Except

/-- splitOnSep sep cs models Go strings.Split for a one-character
separator: it cuts the character list at every occurrence of sep, an empty
input yielding the single empty piece, n separators yielding n+1 pieces. -/
def splitOnSep (sep : Char) : List Char → List (List Char)
  | [] => [[]]
  | c :: rest =>
    match splitOnSep sep rest with
    | [] => [[c]]
    | g :: gs => if c = sep then [] :: g :: gs else (c :: g) :: gs

/-- strSplitOn lifts splitOnSep to String. -/
def strSplitOn (s : String) (sep : Char) : List String :=
  (splitOnSep sep s.toList).map String.mk

/-- removeDollar models strings.Replace(s, "$", "", -1): it deletes every
dollar character. -/
def removeDollar (s : String) : String :=
  String.mk (s.toList.filter (fun c => c != '$'))

/-- hasSubList pat cs decides whether pat occurs as a contiguous sublist
of cs. -/
def hasSubList (pat : List Char) : List Char → Bool
  | [] => pat.isEmpty
  | c :: rest => pat.isPrefixOf (c :: rest) || hasSubList pat rest

/-- strContains models Go strings.Contains. -/
def strContains (s pat : String) : Bool :=
  hasSubList pat.toList s.toList

/-- strTrimPre models Go strings.TrimPrefix: it drops pre from the front
of s when s starts with it, and returns s unchanged otherwise. -/
def strTrimPre (s pre : String) : String :=
  if pre.toList.isPrefixOf s.toList then String.mk (s.toList.drop pre.toList.length) else s

/-- PivotTableOption mirrors the Go struct of the same name: the two range
strings and the four field-name lists. -/
structure PivotTableOption where
  DataRange : String
  PivotTableRange : String
  Rows : List String
  Columns : List String
  Data : List String
  Page : List String
deriving DecidableEq

/-- Modelled from the spec: the generic coordinate-parsing primitive
(CellNameToCoordinates) is an out-of-scope collaborator.  A cell name is a
non-empty run of column letters A..Z followed by a non-empty run of digits
denoting a positive row number; anything else fails. -/
def CellNameToCoordinates (cell : String) : Except String (Nat × Nat) :=
  let letters := cell.toList.takeWhile (fun c => decide (('A' : Char) ≤ c) && decide (c ≤ ('Z' : Char)))
  let digits := cell.toList.drop letters.length
  if letters.isEmpty || digits.isEmpty || !(digits.all (fun c => c.isDigit)) then
    .error ("cannot convert cell " ++ cell ++ " to coordinates")
  else
    let col := letters.foldl (fun acc c => acc * 26 + (c.toNat - 64)) 0
    let row := digits.foldl (fun acc c => acc * 10 + (c.toNat - 48)) 0
    if row = 0 then
      .error ("cannot convert cell " ++ cell ++ " to coordinates")
    else
      .ok (col, row)

/-- Modelled from the spec: areaRefToCoordinates, the range-to-coordinates
primitive, is an out-of-scope collaborator.  It splits a range reference on
the colon into exactly two cell names and parses each. -/
def areaRefToCoordinates (ref : String) : Except String (Nat × Nat × Nat × Nat) :=
  match strSplitOn ref ':' with
  | [c1, c2] =>
    match CellNameToCoordinates c1, CellNameToCoordinates c2 with
    | .ok (x1, y1), .ok (x2, y2) => .ok (x1, y1, x2, y2)
    | .error e, _ => .error e
    | _, .error e => .error e
  | _ => .error "parameter is invalid"

def colNumberToNameAux : Nat → Nat → List Char
  | _, 0 => []
  | 0, _ + 1 => []
  | n + 1, fuel + 1 => colNumberToNameAux (n / 26) fuel ++ [Char.ofNat (65 + n % 26)]

/-- Modelled from the spec: CoordinatesToCellName, the inverse coordinate
primitive, is an out-of-scope collaborator.  It renders a (column, row)
pair as a cell name such as E31 (bijective base-26 column letters followed
by the decimal row number). -/
def CoordinatesToCellName (col row : Nat) : String :=
  String.mk (colNumberToNameAux col col) ++ toString row

/-- adjustRange from pivotTable.go: splits a Sheet!Range string on the
exclamation mark, strips currency anchors from the range part, parses the
two corner coordinates, rejects a single-cell range, and swaps each axis
independently so that the returned bounds are ordered.  Errors are the Go
error strings. -/
def adjustRange (rangeStr : String) : Except String (String × Nat × Nat × Nat × Nat) :=
  if rangeStr.length < 1 then .error "parameter is required"
  else
    match strSplitOn rangeStr '!' with
    | [sheet, rangePart] =>
      match areaRefToCoordinates (removeDollar rangePart) with
      | .error e => .error e
      | .ok (x1, y1, x2, y2) =>
        if x1 = x2 ∧ y1 = y2 then .error "parameter is invalid"
        else
          let p := if x2 < x1 then (x2, x1) else (x1, x2)
          let q := if y2 < y1 then (y2, y1) else (y1, y2)
          .ok (sheet, p.1, q.1, p.2, q.2)
    | _ => .error "parameter is invalid"

/-- xlsxSharedItems: the placeholder shared-items marker of a cache field. -/
structure xlsxSharedItems where
  Count : Nat
deriving DecidableEq

/-- xlsxCacheField: one cache field, a header name plus its shared items. -/
structure xlsxCacheField where
  Name : String
  SharedItems : xlsxSharedItems
deriving DecidableEq

/-- xlsxCacheFields: the counted list of cache fields. -/
structure xlsxCacheFields where
  Count : Nat
  CacheField : List xlsxCacheField
deriving DecidableEq

/-- xlsxWorksheetSource: the worksheet data source of a cache. -/
structure xlsxWorksheetSource where
  Ref : String
  Sheet : String
deriving DecidableEq

/-- xlsxCacheSource: the cache source descriptor.  The Go field named Type
is rendered SourceType because Type is a Lean keyword. -/
structure xlsxCacheSource where
  SourceType : String
  WorksheetSource : xlsxWorksheetSource
deriving DecidableEq

/-- xlsxPivotCacheDefinition: the cache-definition document built by
addPivotCache. -/
structure xlsxPivotCacheDefinition where
  SaveData : Bool
  RefreshOnLoad : Bool
  CacheSource : xlsxCacheSource
  CacheFields : xlsxCacheFields
deriving DecidableEq

/-- xlsxItem: one item of a classified pivot field. -/
structure xlsxItem where
  T : String
deriving DecidableEq

/-- xlsxItems: the counted item list of a classified pivot field. -/
structure xlsxItems where
  Count : Nat
  Item : List xlsxItem
deriving DecidableEq

/-- xlsxPivotField: one classified pivot field.  Defaults are the Go zero
values. -/
structure xlsxPivotField where
  Axis : String := ""
  DataField : Bool := false
  Items : Option xlsxItems := none
deriving DecidableEq

/-- xlsxPivotFields: the counted list of classified pivot fields. -/
structure xlsxPivotFields where
  Count : Nat
  PivotField : List xlsxPivotField
deriving DecidableEq

/-- xlsxField: one row/column field index entry. -/
structure xlsxField where
  X : Int
deriving DecidableEq

/-- xlsxRowFields: the counted row-field index list. -/
structure xlsxRowFields where
  Count : Nat
  Field : List xlsxField
deriving DecidableEq

/-- xlsxColFields: the counted column-field index list. -/
structure xlsxColFields where
  Count : Nat
  Field : List xlsxField
deriving DecidableEq

/-- xlsxDataField: one data-field entry. -/
structure xlsxDataField where
  Fld : Int
deriving DecidableEq

/-- xlsxDataFields: the counted data-field list. -/
structure xlsxDataFields where
  Count : Nat
  DataField : List xlsxDataField
deriving DecidableEq

/-- xlsxX: an empty placeholder member of a row/column item. -/
structure xlsxX
deriving DecidableEq

/-- xlsxI: one row/column item. -/
structure xlsxI where
  X : List xlsxX
deriving DecidableEq

/-- xlsxRowItems: the default row-item placeholder block. -/
structure xlsxRowItems where
  Count : Nat
  I : List xlsxI
deriving DecidableEq

/-- xlsxColItems: the default column-item placeholder block. -/
structure xlsxColItems where
  Count : Nat
  I : List xlsxI
deriving DecidableEq

/-- xlsxLocation: the placement block of the table definition. -/
structure xlsxLocation where
  Ref : String
  FirstDataCol : Nat
  FirstDataRow : Nat
  FirstHeaderRow : Nat
deriving DecidableEq

/-- xlsxPivotTableStyleInfo: the style block of the table definition. -/
structure xlsxPivotTableStyleInfo where
  Name : String
  ShowRowHeaders : Bool
  ShowColHeaders : Bool
  ShowLastColumn : Bool
deriving DecidableEq

/-- xlsxPivotTableDefinition: the table-definition document built by
addPivotTable. -/
structure xlsxPivotTableDefinition where
  Name : String
  CacheID : Nat
  DataCaption : String
  Location : xlsxLocation
  PivotFields : xlsxPivotFields
  RowFields : xlsxRowFields
  RowItems : xlsxRowItems
  ColFields : Option xlsxColFields
  ColItems : xlsxColItems
  DataFields : xlsxDataFields
  PivotTableStyleInfo : xlsxPivotTableStyleInfo
deriving DecidableEq

/-- PartContent: the content of a package part written by this module.  Go
serializes the built definitions to XML bytes; the model stores the
definitions themselves, keeping them observable. -/
inductive PartContent where
  | cacheDef (pc : xlsxPivotCacheDefinition)
  | tableDef (pt : xlsxPivotTableDefinition)
deriving DecidableEq

/-- File models the open document: the package part table XLSX (path and
content of every part written by this module), the sheet-name-to-path map,
the workbook pivot-cache registry (nil or a list of CacheID/relationship-ID
entries, mirroring wb.PivotCaches), the relationship registry (rels file
path, relationship type, target), the content-type registrations, and the
worksheet cell store exposed as a read function from sheet name and cell
name to a value.  The cell store is modelled from the spec: GetCellValue
is an out-of-scope collaborator. -/
structure File where
  XLSX : List (String × PartContent)
  sheetMap : List (String × String)
  PivotCaches : Option (List (Nat × String))
  rels : List (String × String × String)
  contentTypeParts : List (String × Nat)
  cellValue : String → String → Except String String

/-- Modelled from the spec: trimSheetName, a sheet-name sanitizer of the
out-of-scope worksheet model.  The spec describes sheet lookup by name, so
the model uses the name as given. -/
def trimSheetName (name : String) : String := name

/-- Modelled from the spec: workSheetReader resolves a sheet name to its
worksheet, failing with the sheet-not-found error when the name is not
registered in the sheet map. -/
def workSheetReader (f : File) (sheet : String) : Except String Unit :=
  match (f.sheetMap).lookup (trimSheetName sheet) with
  | some _ => .ok ()
  | none => .error ("sheet " ++ sheet ++ " is not exist")

/-- parseFormatPivotTableSet from pivotTable.go: validates the option
(nil check, both ranges parse, data sheet readable, pivot sheet present in
the sheet map) and returns the pivot sheet path.  The Go single quotes
around parameter names in wrapped error messages are elided. -/
def parseFormatPivotTableSet (f : File) (opt : Option PivotTableOption) : Except String String :=
  match opt with
  | none => .error "parameter is required"
  | some o =>
    match adjustRange o.DataRange with
    | .error e => .error ("parameter DataRange parsing error: " ++ e)
    | .ok (dataSheetName, _) =>
      match adjustRange o.PivotTableRange with
      | .error e => .error ("parameter PivotTableRange parsing error: " ++ e)
      | .ok (pivotTableSheetName, _) =>
        match workSheetReader f dataSheetName with
        | .error e => .error e
        | .ok _ =>
          match (f.sheetMap).lookup (trimSheetName pivotTableSheetName) with
          | none => .error ("sheet " ++ pivotTableSheetName ++ " is not exist")
          | some path => .ok path

def getPivotFieldsOrderAux (f : File) (sheet : String) (row : Nat) : Nat → Nat → Except String (List String)
  | _, 0 => .ok []
  | col, n + 1 =>
    match f.cellValue sheet (CoordinatesToCellName col row) with
    | .error e => .error e
    | .ok name =>
      match getPivotFieldsOrderAux f sheet row (col + 1) n with
      | .error e => .error e
      | .ok rest => .ok (name :: rest)

/-- getPivotFieldsOrder from pivotTable.go: re-resolves the data range and
reads the cell value at each column of its first row, from the left bound
to the right bound inclusive, propagating the first read failure. -/
def getPivotFieldsOrder (f : File) (dataRange : String) : Except String (List String) :=
  match adjustRange dataRange with
  | .error e => .error ("parameter DataRange parsing error: " ++ e)
  | .ok (dataSheet, x1, y1, x2, _) => getPivotFieldsOrderAux f dataSheet y1 x1 (x2 + 1 - x1)

def inStrSliceAux (x : String) : List String → Nat → Int
  | [], _ => -1
  | n :: rest, idx => if x = n then Int.ofNat idx else inStrSliceAux x rest (idx + 1)

/-- inStrSlice from pivotTable.go: the index of the first occurrence of x
in a, or -1 when absent. -/
def inStrSlice (a : List String) (x : String) : Int :=
  inStrSliceAux x a 0

/-- getPivotFieldsIndex from pivotTable.go: maps each requested field name
to its first position in the header order, silently skipping names that do
not occur. -/
def getPivotFieldsIndex (f : File) (fields : List String) (opt : PivotTableOption) : Except String (List Int) :=
  match getPivotFieldsOrder f opt.DataRange with
  | .error e => .error e
  | .ok orders =>
    .ok (fields.foldl
      (fun acc field =>
        if inStrSlice orders field ≠ -1 then acc ++ [inStrSlice orders field] else acc)
      [])

/-- addPivotFields from pivotTable.go: classifies each header field in
header order with the Rows > Columns > Data priority, producing the
ordered pivot-field list that the caller installs into the table
definition. -/
def addPivotFields (f : File) (opt : PivotTableOption) : Except String (List xlsxPivotField) :=
  match getPivotFieldsOrder f opt.DataRange with
  | .error e => .error e
  | .ok order =>
    .ok (order.map (fun name =>
      if inStrSlice opt.Rows name ≠ -1 then
        { Axis := "axisRow", DataField := false,
          Items := some { Count := 1, Item := [{ T := "default" }] } }
      else if inStrSlice opt.Columns name ≠ -1 then
        { Axis := "axisCol", DataField := false,
          Items := some { Count := 1, Item := [{ T := "default" }] } }
      else if inStrSlice opt.Data name ≠ -1 then
        { Axis := "", DataField := true, Items := none }
      else
        { Axis := "", DataField := false, Items := none }))

/-- addPivotColFields from pivotTable.go: when Columns is empty the
column-fields section is omitted entirely; otherwise it is the counted
index list resolved from Columns. -/
def addPivotColFields (f : File) (opt : PivotTableOption) : Except String (Option xlsxColFields) :=
  if opt.Columns.length = 0 then .ok none
  else
    match getPivotFieldsIndex f opt.Columns opt with
    | .error e => .error e
    | .ok colFieldsIndex =>
      .ok (some { Count := colFieldsIndex.length,
                  Field := colFieldsIndex.map (fun i => { X := i }) })

/-- countPivotTables from pivotTable.go: the number of package parts whose
path contains xl/pivotTables/pivotTable. -/
def countPivotTables (f : File) : Nat :=
  ((f.XLSX).filter (fun kv => strContains kv.1 "xl/pivotTables/pivotTable")).length

/-- countPivotCache from pivotTable.go: the number of package parts whose
path contains xl/pivotCache/pivotCacheDefinition. -/
def countPivotCache (f : File) : Nat :=
  ((f.XLSX).filter (fun kv => strContains kv.1 "xl/pivotCache/pivotCacheDefinition")).length

/-- addPivotCache from pivotTable.go: re-validates the data range, reads
the header order, and builds the cache definition (worksheet source over
the normalized reference, one cache field per header name with an empty
shared-items marker, count set to the field-list length).  Where Go
serializes the definition and stores the bytes at pivotCacheXML via
saveFileList, the model appends the definition itself to the part table
and also returns it. -/
def addPivotCache (f : File) (pivotCacheXML : String) (opt : PivotTableOption) : Except String (xlsxPivotCacheDefinition × File) :=
  match adjustRange opt.DataRange with
  | .error e => .error ("parameter DataRange parsing error: " ++ e)
  | .ok (dataSheet, x1, y1, x2, y2) =>
    match getPivotFieldsOrder f opt.DataRange with
    | .error e => .error e
    | .ok order =>
      let hcell := CoordinatesToCellName x1 y1
      let vcell := CoordinatesToCellName x2 y2
      let pc : xlsxPivotCacheDefinition :=
        { SaveData := false
          RefreshOnLoad := true
          CacheSource :=
            { SourceType := "worksheet"
              WorksheetSource := { Ref := hcell ++ ":" ++ vcell, Sheet := dataSheet } }
          CacheFields :=
            { Count := (order.map (fun name =>
                ({ Name := name, SharedItems := { Count := 0 } } : xlsxCacheField))).length
              CacheField := order.map (fun name =>
                { Name := name, SharedItems := { Count := 0 } }) } }
      .ok (pc, { f with XLSX := f.XLSX ++ [(pivotCacheXML, .cacheDef pc)] })

/-- addPivotTable (the lower-case builder) from pivotTable.go: validates
the pivot table range, builds the table definition skeleton (location with
unit offsets, default row and column item placeholders, style block),
installs the classified pivot fields, the row-field, column-field and
data-field index lists, each with its count set to the list length.  Where
Go serializes the definition and stores the bytes at pivotTableXML via
saveFileList, the model appends the definition itself to the part table
and also returns it. -/
def addPivotTable (f : File) (cacheID pivotTableID : Nat) (pivotTableXML : String) (opt : PivotTableOption) : Except String (xlsxPivotTableDefinition × File) :=
  match adjustRange opt.PivotTableRange with
  | .error e => .error ("parameter PivotTableRange parsing error: " ++ e)
  | .ok (_, x1, y1, x2, y2) =>
    let hcell := CoordinatesToCellName x1 y1
    let vcell := CoordinatesToCellName x2 y2
    match addPivotFields f opt with
    | .error e => .error e
    | .ok pivotFieldList =>
      match getPivotFieldsIndex f opt.Rows opt with
      | .error e => .error e
      | .ok rowFieldsIndex =>
        match addPivotColFields f opt with
        | .error e => .error e
        | .ok colFields =>
          match getPivotFieldsIndex f opt.Data opt with
          | .error e => .error e
          | .ok dataFieldsIndex =>
            let pt : xlsxPivotTableDefinition :=
              { Name := "Pivot Table" ++ toString pivotTableID
                CacheID := cacheID
                DataCaption := "Values"
                Location :=
                  { Ref := hcell ++ ":" ++ vcell
                    FirstDataCol := 1, FirstDataRow := 1, FirstHeaderRow := 1 }
                PivotFields :=
                  { Count := pivotFieldList.length, PivotField := pivotFieldList }
                RowFields :=
                  { Count := (rowFieldsIndex.map (fun i => ({ X := i } : xlsxField))).length
                    Field := rowFieldsIndex.map (fun i => { X := i }) }
                RowItems := { Count := 1, I := [{ X := [{}, {}] }] }
                ColFields := colFields
                ColItems := { Count := 1, I := [{ X := [] }] }
                DataFields :=
                  { Count := (dataFieldsIndex.map (fun i => ({ Fld := i } : xlsxDataField))).length
                    DataField := dataFieldsIndex.map (fun i => { Fld := i }) }
                PivotTableStyleInfo :=
                  { Name := "PivotStyleLight16"
                    ShowRowHeaders := true, ShowColHeaders := true, ShowLastColumn := true } }
            .ok (pt, { f with XLSX := f.XLSX ++ [(pivotTableXML, .tableDef pt)] })

/-- Modelled from the spec: the relationship-type constant for pivot cache
parts. -/
def SourceRelationshipPivotCache : String :=
  "http://schemas.openxmlformats.org/officeDocument/2006/relationships/pivotCacheDefinition"

/-- Modelled from the spec: the relationship-type constant for pivot table
parts. -/
def SourceRelationshipPivotTable : String :=
  "http://schemas.openxmlformats.org/officeDocument/2006/relationships/pivotTable"

/-- Modelled from the spec: addRels appends one entry to the append-only
relationship table of the named rels file and returns the new sequential
relationship ID, the count of entries already in that file plus one. -/
def addRels (f : File) (relPath relType target : String) : Nat × File :=
  let rID := ((f.rels).filter (fun r => r.1 = relPath)).length + 1
  (rID, { f with rels := f.rels ++ [(relPath, relType, target)] })

/-- Modelled from the spec: addContentTypePart appends one content-type
manifest override for the new part of the given kind and index. -/
def addContentTypePart (f : File) (idx : Nat) (contentType : String) : File :=
  { f with contentTypeParts := f.contentTypeParts ++ [(contentType, idx)] }

/-- registeredCaches reads the workbook cache registry, treating the nil
registry that Go materializes to an empty one as the empty list. -/
def registeredCaches (f : File) : List (Nat × String) :=
  match f.PivotCaches with
  | none => []
  | some l => l

/-- addWorkbookPivotCache from pivotTable.go: scans the workbook cache
registry (nil read as empty) starting from 1, keeps the largest CacheID
seen, increments, appends the new entry with the given relationship ID,
and returns the new CacheID. -/
def addWorkbookPivotCache (f : File) (RID : Nat) : Nat × File :=
  let caches := registeredCaches f
  let cacheID := (caches.foldl (fun acc c => if c.1 > acc then c.1 else acc) 1) + 1
  (cacheID,
   { f with PivotCaches := some (caches ++ [(cacheID, "rId" ++ toString RID)]) })

/-- AddPivotTable from pivotTable.go, the top-level operation: validate,
allocate the two count-based file-suffix IDs, build and persist the cache
part, register the workbook cache relationship and registry entry,
register the table-to-cache relationship, build and persist the table
part, register the worksheet-to-table relationship and both content-type
overrides.  The Go method mutates f in place and returns an error; the
model returns the outcome together with the state afterward.  Where Go
derives the in-package table path by replacing the leading .. of the
relationship target with xl, the model writes that path directly; and the
nil check that parseFormatPivotTableSet performs first is hoisted into the
top-level match, which returns the identical error for a missing option. -/
def AddPivotTable (f : File) (opt : Option PivotTableOption) : Except String Unit × File :=
  match opt with
  | none => (.error "parameter is required", f)
  | some o =>
    match parseFormatPivotTableSet f (some o) with
    | .error e => (.error e, f)
    | .ok pivotTableSheetPath =>
      let pivotTableID := countPivotTables f + 1
      let pivotCacheID := countPivotCache f + 1
      let sheetRelationshipsPivotTableXML := "../pivotTables/pivotTable" ++ toString pivotTableID ++ ".xml"
      let pivotTableXML := "xl/pivotTables/pivotTable" ++ toString pivotTableID ++ ".xml"
      let pivotCacheXML := "xl/pivotCache/pivotCacheDefinition" ++ toString pivotCacheID ++ ".xml"
      match addPivotCache f pivotCacheXML o with
      | .error e => (.error e, f)
      | .ok (_, f1) =>
        let r1 := addRels f1 "xl/_rels/workbook.xml.rels" SourceRelationshipPivotCache
          ("pivotCache/pivotCacheDefinition" ++ toString pivotCacheID ++ ".xml")
        let c := addWorkbookPivotCache r1.2 r1.1
        let pivotCacheRels := "xl/pivotTables/_rels/pivotTable" ++ toString pivotTableID ++ ".xml.rels"
        let r2 := addRels c.2 pivotCacheRels SourceRelationshipPivotCache
          ("../pivotCache/pivotCacheDefinition" ++ toString pivotCacheID ++ ".xml")
        match addPivotTable r2.2 c.1 pivotTableID pivotTableXML o with
        | .error e => (.error e, r2.2)
        | .ok (_, f5) =>
          let pivotTableSheetRels := "xl/worksheets/_rels/" ++ strTrimPre pivotTableSheetPath "xl/worksheets/" ++ ".rels"
          let r3 := addRels f5 pivotTableSheetRels SourceRelationshipPivotTable sheetRelationshipsPivotTableXML
          let f6 := addContentTypePart r3.2 pivotTableID "pivotTable"
          let f7 := addContentTypePart f6 pivotCacheID "pivotCache"
          (.ok (), f7)

/-- classifyField restates, in the words of the specification, the axis
classification rule for one header name: row axis if the name occurs in
Rows, else column axis if it occurs in Columns, else data field if it
occurs in Data, else unclassified, first match winning.  It is the
specification-side counterpart against which addPivotFields is checked. -/
def classifyField (opt : PivotTableOption) (name : String) : xlsxPivotField :=
  if name ∈ opt.Rows then
    { Axis := "axisRow", DataField := false,
      Items := some { Count := 1, Item := [{ T := "default" }] } }
  else if name ∈ opt.Columns then
    { Axis := "axisCol", DataField := false,
      Items := some { Count := 1, Item := [{ T := "default" }] } }
  else if name ∈ opt.Data then
    { Axis := "", DataField := true, Items := none }
  else
    { Axis := "", DataField := false, Items := none }

/-- firstIndexIn restates, in the words of the specification, the position
of the first occurrence of a name in the header order, none when the name
is absent.  It is the specification-side counterpart against which
getPivotFieldsIndex is checked. -/
def firstIndexIn (orders : List String) (x : String) : Option Nat :=
  match orders with
  | [] => none
  | n :: rest => if x = n then some 0 else (firstIndexIn rest x).map (fun j => j + 1)

/-- maxRegisteredCacheID is the maximum CacheID registered across all
existing workbook pivot caches, zero for an empty (or absent) registry,
as the claim about workbook CacheID allocation phrases it. -/
def maxRegisteredCacheID (f : File) : Nat :=
  (registeredCaches f).foldl (fun acc c => max acc c.1) 0

/-- exampleCellValue is the worksheet content of the worked example of the
specification: Sheet1 carries the header row Month, Year, Type, Sales,
Region in A1..E1 and empty cells elsewhere. -/
def exampleCellValue (sheet cell : String) : Except String String :=
  if sheet = "Sheet1" then
    if cell = "A1" then .ok "Month"
    else if cell = "B1" then .ok "Year"
    else if cell = "C1" then .ok "Type"
    else if cell = "D1" then .ok "Sales"
    else if cell = "E1" then .ok "Region"
    else .ok ""
  else .error ("sheet " ++ sheet ++ " is not exist")

/-- exampleFile is a fresh document holding only Sheet1 with the example
header row: no parts, no registered caches, no relationships. -/
def exampleFile : File :=
  { XLSX := []
    sheetMap := [("Sheet1", "xl/worksheets/sheet1.xml")]
    PivotCaches := none
    rels := []
    contentTypeParts := []
    cellValue := exampleCellValue }

/-- exampleOpt is the pivot-table specification of the worked example:
data source Sheet1!$A$1:$E$31, placement Sheet1!$G$2:$M$34, Rows Month and
Year, Columns Type, Data Sales. -/
def exampleOpt : PivotTableOption :=
  { DataRange := "Sheet1!$A$1:$E$31"
    PivotTableRange := "Sheet1!$G$2:$M$34"
    Rows := ["Month", "Year"]
    Columns := ["Type"]
    Data := ["Sales"]
    Page := [] }

/-- overlapOpt is exampleOpt with overlapping field lists: Month occurs in
both Rows and Columns, Year in both Columns and Data. -/
def overlapOpt : PivotTableOption :=
  { DataRange := "Sheet1!$A$1:$E$31"
    PivotTableRange := "Sheet1!$G$2:$M$34"
    Rows := ["Month"]
    Columns := ["Month", "Year"]
    Data := ["Year", "Sales"]
    Page := [] }

/-- registryFile is exampleFile with a sparse nonempty workbook cache
registry whose largest CacheID is 7. -/
def registryFile : File :=
  { XLSX := []
    sheetMap := [("Sheet1", "xl/worksheets/sheet1.xml")]
    PivotCaches := some [(3, "rId9"), (7, "rId12")]
    rels := []
    contentTypeParts := []
    cellValue := exampleCellValue }

/-- examplePC is the cache definition that the cache builder produces for
the worked example document and option. -/
def examplePC : xlsxPivotCacheDefinition :=
  { SaveData := false
    RefreshOnLoad := true
    CacheSource :=
      { SourceType := "worksheet"
        WorksheetSource := { Ref := "A1:E31", Sheet := "Sheet1" } }
    CacheFields :=
      { Count := 5
        CacheField :=
          [{ Name := "Month", SharedItems := { Count := 0 } },
           { Name := "Year", SharedItems := { Count := 0 } },
           { Name := "Type", SharedItems := { Count := 0 } },
           { Name := "Sales", SharedItems := { Count := 0 } },
           { Name := "Region", SharedItems := { Count := 0 } }] } }

/-- examplePT is the table definition that the table builder produces for
the worked example document and option with workbook CacheID 2 and table
ID 1. -/
def examplePT : xlsxPivotTableDefinition :=
  { Name := "Pivot Table1"
    CacheID := 2
    DataCaption := "Values"
    Location := { Ref := "G2:M34", FirstDataCol := 1, FirstDataRow := 1, FirstHeaderRow := 1 }
    PivotFields :=
      { Count := 5
        PivotField :=
          [{ Axis := "axisRow", DataField := false,
             Items := some { Count := 1, Item := [{ T := "default" }] } },
           { Axis := "axisRow", DataField := false,
             Items := some { Count := 1, Item := [{ T := "default" }] } },
           { Axis := "axisCol", DataField := false,
             Items := some { Count := 1, Item := [{ T := "default" }] } },
           { Axis := "", DataField := true, Items := none },
           { Axis := "", DataField := false, Items := none }] }
    RowFields := { Count := 2, Field := [{ X := 0 }, { X := 1 }] }
    RowItems := { Count := 1, I := [{ X := [{}, {}] }] }
    ColFields := some { Count := 1, Field := [{ X := 2 }] }
    ColItems := { Count := 1, I := [{ X := [] }] }
    DataFields := { Count := 1, DataField := [{ Fld := 3 }] }
    PivotTableStyleInfo :=
      { Name := "PivotStyleLight16"
        ShowRowHeaders := true, ShowColHeaders := true, ShowLastColumn := true } }


theorem inStrSliceAux_eq_elim (x : String) :
    ∀ (a : List String) (i : Nat),
      inStrSliceAux x a i = (firstIndexIn a x).elim (-1) (fun j => Int.ofNat (i + j))
  | [], _ => rfl
  | n :: rest, i => by
    simp only [inStrSliceAux, firstIndexIn]
    by_cases h : x = n
    · simp [h]
    · simp only [if_neg h]
      rw [inStrSliceAux_eq_elim x rest (i + 1)]
      cases firstIndexIn rest x
      · simp
      · simp
        omega

theorem inStrSlice_eq_elim (a : List String) (x : String) :
    inStrSlice a x = (firstIndexIn a x).elim (-1) Int.ofNat := by
  rw [inStrSlice, inStrSliceAux_eq_elim]
  cases firstIndexIn a x <;> simp

theorem firstIndexIn_eq_none_iff (x : String) :
    ∀ a : List String, firstIndexIn a x = none ↔ x ∉ a
  | [] => by simp [firstIndexIn]
  | n :: rest => by
    simp only [firstIndexIn]
    by_cases h : x = n
    · simp [h]
    · simp [h, firstIndexIn_eq_none_iff x rest]

theorem inStrSlice_ne_neg_one_iff (a : List String) (x : String) :
    inStrSlice a x ≠ -1 ↔ x ∈ a := by
  rw [inStrSlice_eq_elim]
  cases h : firstIndexIn a x with
  | none =>
    have := (firstIndexIn_eq_none_iff x a).mp h
    simp [this]
  | some j =>
    have : x ∈ a := by
      by_contra hx
      rw [(firstIndexIn_eq_none_iff x a).mpr hx] at h
      exact Option.noConfusion h
    simp [this]

/-- C1: when building the pivot table, every header field of the data
range is classified by iterating the header in order and applying the
priority Rows > Columns > Data, first match winning; a name present in
more than one list is resolved by the same priority and overlapping lists
are not rejected as an error.  The first conjunct identifies
addPivotFields with the per-name priority classifier mapped over the
header order; the second shows the overlapping lists of overlapOpt being
classified by priority (Month: Rows wins over Columns; Year: Columns wins
over Data; Sales: data; Type, Region: unclassified) with no error. -/
theorem addPivotFields_priority_classification :
    (∀ (f : File) (opt : PivotTableOption) (order : List String),
       getPivotFieldsOrder f opt.DataRange = .ok order →
       addPivotFields f opt = .ok (order.map (classifyField opt)))
    ∧ addPivotFields exampleFile overlapOpt = .ok
        [{ Axis := "axisRow", DataField := false,
           Items := some { Count := 1, Item := [{ T := "default" }] } },
         { Axis := "axisCol", DataField := false,
           Items := some { Count := 1, Item := [{ T := "default" }] } },
         { Axis := "", DataField := false, Items := none },
         { Axis := "", DataField := true, Items := none },
         { Axis := "", DataField := false, Items := none }] := by
  constructor
  · intro f opt order h
    simp only [addPivotFields, h]
    refine congrArg Except.ok (List.map_congr_left ?_)
    intro name _
    simp only [classifyField, inStrSlice_ne_neg_one_iff]
  · decide

/-- Witness for C1: the classification theorem applied to the worked
example document, whose header order evaluates to the five names. -/
theorem addPivotFields_priority_classification_witness :
    addPivotFields exampleFile exampleOpt =
      .ok ((["Month", "Year", "Type", "Sales", "Region"]).map (classifyField exampleOpt)) :=
  addPivotFields_priority_classification.1 exampleFile exampleOpt
    ["Month", "Year", "Type", "Sales", "Region"] (by decide)

theorem index_foldl_eq_filterMap (orders : List String) :
    ∀ (fields : List String) (acc : List Int),
      fields.foldl
        (fun acc field =>
          if inStrSlice orders field ≠ -1 then acc ++ [inStrSlice orders field] else acc)
        acc
      = acc ++ fields.filterMap (fun field => (firstIndexIn orders field).map Int.ofNat)
  | [], acc => by simp
  | field :: rest, acc => by
    simp only [List.foldl_cons, List.filterMap_cons]
    cases h : firstIndexIn orders field with
    | none =>
      have hs : inStrSlice orders field = -1 := by
        rw [inStrSlice_eq_elim, h]
        rfl
      simp only [hs]
      simp only [ne_eq, not_true_eq_false, if_false]
      exact index_foldl_eq_filterMap orders rest acc
    | some j =>
      have hs : inStrSlice orders field = Int.ofNat j := by
        rw [inStrSlice_eq_elim, h]
        rfl
      have hne : inStrSlice orders field ≠ -1 := by
        rw [hs]
        intro hc
        have h0 : (0 : Int) ≤ Int.ofNat j := Int.ofNat_nonneg j
        rw [hc] at h0
        norm_num at h0
      rw [if_pos hne, hs, index_foldl_eq_filterMap orders rest (acc ++ [Int.ofNat j])]
      simp

/-- C6: field-index resolution returns, for each requested name in request
order, the position of its first occurrence in the header; absent names
are silently dropped and never an error.  The first conjunct identifies
getPivotFieldsIndex with filterMap of the first-occurrence position over
the request list; the remaining conjuncts compute the two examples of the
claim against the worked example header. -/
theorem getPivotFieldsIndex_first_occurrence :
    (∀ (f : File) (fields : List String) (opt : PivotTableOption) (orders : List String),
       getPivotFieldsOrder f opt.DataRange = .ok orders →
       getPivotFieldsIndex f fields opt =
         .ok (fields.filterMap (fun field => (firstIndexIn orders field).map Int.ofNat)))
    ∧ getPivotFieldsIndex exampleFile ["Year", "Sales"] exampleOpt = .ok [1, 3]
    ∧ getPivotFieldsIndex exampleFile ["NotAColumn"] exampleOpt = .ok [] := by
  refine ⟨?_, by decide, by decide⟩
  intro f fields opt orders h
  simp only [getPivotFieldsIndex, h]
  rw [index_foldl_eq_filterMap orders fields []]
  simp

/-- Witness for C6: the resolution theorem applied to the worked example
document and the request list Year, Sales. -/
theorem getPivotFieldsIndex_first_occurrence_witness :
    getPivotFieldsIndex exampleFile ["Year", "Sales"] exampleOpt =
      .ok ((["Year", "Sales"]).filterMap
        (fun field =>
          (firstIndexIn ["Month", "Year", "Type", "Sales", "Region"] field).map Int.ofNat)) :=
  getPivotFieldsIndex_first_occurrence.1 exampleFile ["Year", "Sales"] exampleOpt
    ["Month", "Year", "Type", "Sales", "Region"] (by decide)

theorem getPivotFieldsOrderAux_ok_spec (f : File) (sheet : String) (row : Nat) :
    ∀ (n col : Nat) (order : List String),
      getPivotFieldsOrderAux f sheet row col n = .ok order →
      order.length = n ∧
        ∀ (i : Nat) (h : i < order.length),
          f.cellValue sheet (CoordinatesToCellName (col + i) row) = .ok (order.get ⟨i, h⟩)
  | 0, col, order => by
    intro h
    simp only [getPivotFieldsOrderAux, Except.ok.injEq] at h
    subst h
    exact ⟨rfl, fun i h => (Nat.not_lt_zero i h).elim⟩
  | n + 1, col, order => by
    intro h
    simp only [getPivotFieldsOrderAux] at h
    cases hcv : f.cellValue sheet (CoordinatesToCellName col row) with
    | error e => rw [hcv] at h; exact Except.noConfusion h
    | ok name =>
      rw [hcv] at h
      cases hrec : getPivotFieldsOrderAux f sheet row (col + 1) n with
      | error e => rw [hrec] at h; exact Except.noConfusion h
      | ok rest =>
        rw [hrec] at h
        simp only [Except.ok.injEq] at h
        subst h
        obtain ⟨hlen, hidx⟩ := getPivotFieldsOrderAux_ok_spec f sheet row n (col + 1) rest hrec
        refine ⟨by simp [hlen], ?_⟩
        intro i hi
        match i with
        | 0 => simpa using hcv
        | j + 1 =>
          have hj : j < rest.length := by
            simp only [List.length_cons] at hi
            omega
          have := hidx j hj
          have harith : col + (j + 1) = col + 1 + j := by omega
          rw [harith]
          simpa using this

theorem getPivotFieldsOrderAux_error_spec (f : File) (sheet : String) (row : Nat) :
    ∀ (n col : Nat) (e : String),
      getPivotFieldsOrderAux f sheet row col n = .error e →
      ∃ j, j < n ∧ f.cellValue sheet (CoordinatesToCellName (col + j) row) = .error e
  | 0, col, e => by
    intro h
    exact Except.noConfusion h
  | n + 1, col, e => by
    intro h
    simp only [getPivotFieldsOrderAux] at h
    cases hcv : f.cellValue sheet (CoordinatesToCellName col row) with
    | error e0 =>
      rw [hcv] at h
      simp only [Except.error.injEq] at h
      subst h
      exact ⟨0, Nat.succ_pos n, by simpa using hcv⟩
    | ok name =>
      rw [hcv] at h
      cases hrec : getPivotFieldsOrderAux f sheet row (col + 1) n with
      | error e0 =>
        rw [hrec] at h
        simp only [Except.error.injEq] at h
        subst h
        obtain ⟨j, hj, hcell⟩ := getPivotFieldsOrderAux_error_spec f sheet row n (col + 1) e0 hrec
        refine ⟨j + 1, by omega, ?_⟩
        have harith : col + (j + 1) = col + 1 + j := by omega
        rw [harith]
        exact hcell
      | ok rest => rw [hrec] at h; exact Except.noConfusion h

/-- C5: for every resolvable data range, field-order extraction returns
the cell values of the first (top) row of the range, one per column across
the full column span in column order, the returned sequence having length
equal to the column count, duplicates preserved (each entry is exactly the
value read at its column), and any underlying cell-read failure being
propagated as an error. -/
theorem getPivotFieldsOrder_reads_header_row :
    ∀ (f : File) (dr sheet : String) (x1 y1 x2 y2 : Nat),
      adjustRange dr = .ok (sheet, x1, y1, x2, y2) →
      (∀ order, getPivotFieldsOrder f dr = .ok order →
         order.length = x2 + 1 - x1 ∧
           ∀ (i : Nat) (h : i < order.length),
             f.cellValue sheet (CoordinatesToCellName (x1 + i) y1) = .ok (order.get ⟨i, h⟩))
      ∧ (∀ e, getPivotFieldsOrder f dr = .error e →
           ∃ col, x1 ≤ col ∧ col ≤ x2 ∧
             f.cellValue sheet (CoordinatesToCellName col y1) = .error e) := by
  intro f dr sheet x1 y1 x2 y2 hadj
  constructor
  · intro order h
    rw [getPivotFieldsOrder, hadj] at h
    exact getPivotFieldsOrderAux_ok_spec f sheet y1 (x2 + 1 - x1) x1 order h
  · intro e h
    rw [getPivotFieldsOrder, hadj] at h
    obtain ⟨j, hj, hcell⟩ := getPivotFieldsOrderAux_error_spec f sheet y1 (x2 + 1 - x1) x1 e h
    exact ⟨x1 + j, Nat.le_add_right x1 j, by omega, hcell⟩

/-- Witness for C5: the extraction theorem applied to the worked example
document, where the header row evaluates to the five names Month, Year,
Type, Sales, Region, of length 5 = 5 + 1 - 1, and the first entry is the
value read at column 1 of row 1. -/
theorem getPivotFieldsOrder_reads_header_row_witness :
    getPivotFieldsOrder exampleFile "Sheet1!$A$1:$E$31" =
        .ok ["Month", "Year", "Type", "Sales", "Region"]
      ∧ (["Month", "Year", "Type", "Sales", "Region"] : List String).length = 5 + 1 - 1
      ∧ exampleFile.cellValue "Sheet1" (CoordinatesToCellName (1 + 0) 1) = .ok "Month" := by
  have h := getPivotFieldsOrder_reads_header_row exampleFile "Sheet1!$A$1:$E$31"
    "Sheet1" 1 1 5 31 (by decide)
  have hok : getPivotFieldsOrder exampleFile "Sheet1!$A$1:$E$31" =
      .ok ["Month", "Year", "Type", "Sales", "Region"] := by decide
  refine ⟨hok, (h.1 _ hok).1, ?_⟩
  have := (h.1 _ hok).2 0 (by decide)
  simpa using this

theorem strSplitOn_two_ne_empty (s a b : String) (h : strSplitOn s '!' = [a, b]) :
    ¬ s.length < 1 := by
  intro hlen
  have hs : s = "" := by
    cases s with
    | mk data =>
      cases data with
      | nil => rfl
      | cons c cs => simp [String.length] at hlen
  rw [hs] at h
  simp [strSplitOn, splitOnSep] at h

theorem swapPair_fst (x y : Nat) : (if y < x then (y, x) else (x, y)).1 = min x y := by
  split
  · simp only []
    omega
  · simp only []
    omega

theorem swapPair_snd (x y : Nat) : (if y < x then (y, x) else (x, y)).2 = max x y := by
  split
  · simp only []
    omega
  · simp only []
    omega

theorem adjustRange_ok_of_parse (s a b : String) (c1 r1 c2 r2 : Nat)
    (hsplit : strSplitOn s '!' = [a, b])
    (hparse : areaRefToCoordinates (removeDollar b) = .ok (c1, r1, c2, r2))
    (hne : ¬(c1 = c2 ∧ r1 = r2)) :
    adjustRange s = .ok (a, min c1 c2, min r1 r2, max c1 c2, max r1 r2) := by
  rw [adjustRange, if_neg (strSplitOn_two_ne_empty s a b hsplit)]
  split
  next sheet rangePart heq =>
    rw [hsplit] at heq
    obtain ⟨rfl, rfl⟩ : a = sheet ∧ b = rangePart := by simpa using heq
    simp only [hparse]
    rw [if_neg hne]
    simp [swapPair_fst, swapPair_snd]
  next heq =>
    exact ((heq a b hsplit).elim)

theorem adjustRange_ok_inv (s sheet : String) (x1 y1 x2 y2 : Nat)
    (h : adjustRange s = .ok (sheet, x1, y1, x2, y2)) :
    ∃ rng a b c d, strSplitOn s '!' = [sheet, rng] ∧
      areaRefToCoordinates (removeDollar rng) = .ok (a, b, c, d) ∧
      ¬(a = c ∧ b = d) ∧
      x1 = min a c ∧ y1 = min b d ∧ x2 = max a c ∧ y2 = max b d := by
  rw [adjustRange] at h
  by_cases hlen : s.length < 1
  · rw [if_pos hlen] at h
    exact Except.noConfusion h
  · rw [if_neg hlen] at h
    split at h
    next sh rng heq =>
      split at h
      next e heq2 => exact Except.noConfusion h
      next a b c d heq2 =>
        split at h
        next hdeg => exact Except.noConfusion h
        next hdeg =>
          simp only [Except.ok.injEq, Prod.mk.injEq] at h
          obtain ⟨rfl, h1, h2, h3, h4⟩ := h
          refine ⟨rng, a, b, c, d, heq, heq2, hdeg, ?_, ?_, ?_, ?_⟩
          · rw [← h1, swapPair_fst]
          · rw [← h2, swapPair_fst]
          · rw [← h3, swapPair_snd]
          · rw [← h4, swapPair_snd]
    next heq =>
      exact Except.noConfusion h

/-- C2: for every Sheet!Range input whose two corner coordinates parse and
are not identical on both axes, range normalization swaps each axis
independently (min and max are taken per axis, not as a full rotation of
the corner pair) so the returned bounds always satisfy x1 ≤ x2 and
y1 ≤ y2; in particular Sheet1!$E$31:$A$1 normalizes to exactly the same
sheet and bounds as Sheet1!$A$1:$E$31. -/
theorem adjustRange_normalizes_per_axis :
    (∀ (s sheet : String) (x1 y1 x2 y2 : Nat),
       adjustRange s = .ok (sheet, x1, y1, x2, y2) → x1 ≤ x2 ∧ y1 ≤ y2)
    ∧ (∀ (s a b : String) (c1 r1 c2 r2 : Nat),
         strSplitOn s '!' = [a, b] →
         areaRefToCoordinates (removeDollar b) = .ok (c1, r1, c2, r2) →
         ¬(c1 = c2 ∧ r1 = r2) →
         adjustRange s = .ok (a, min c1 c2, min r1 r2, max c1 c2, max r1 r2))
    ∧ adjustRange "Sheet1!$E$31:$A$1" = adjustRange "Sheet1!$A$1:$E$31"
    ∧ adjustRange "Sheet1!$A$1:$E$31" = .ok ("Sheet1", 1, 1, 5, 31) := by
  refine ⟨?_, adjustRange_ok_of_parse, by decide, by decide⟩
  intro s sheet x1 y1 x2 y2 h
  obtain ⟨rng, a, b, c, d, _, _, _, hx1, hy1, hx2, hy2⟩ := adjustRange_ok_inv s sheet x1 y1 x2 y2 h
  subst hx1
  subst hy1
  subst hx2
  subst hy2
  exact ⟨min_le_max, min_le_max⟩

/-- Witness for C2: the per-axis normalization conjunct applied to the
reversed-corner input Sheet1!$E$31:$A$1, whose raw corners parse to
(5, 31) and (1, 1). -/
theorem adjustRange_normalizes_per_axis_witness :
    adjustRange "Sheet1!$E$31:$A$1" =
      .ok ("Sheet1", min 5 1, min 31 1, max 5 1, max 31 1) :=
  adjustRange_normalizes_per_axis.2.1 "Sheet1!$E$31:$A$1" "Sheet1" "$E$31:$A$1"
    5 31 1 1 (by decide) (by decide) (by decide)

/-- C7: the range resolver errors exactly when the input is malformed or
degenerate: it succeeds precisely on inputs that split into Sheet!Range on
the separator, whose range portion (anchors stripped) parses into two cell
coordinates, and whose two coordinates are not identical on both axes; a
parseable range whose coordinates coincide on both axes fails with the
degenerate-range error, as the single-cell range Sheet1!$A$1:$A$1 does. -/
theorem adjustRange_error_iff_malformed_or_degenerate :
    (∀ s : String,
       (∃ v, adjustRange s = .ok v) ↔
         (∃ sheet rng a b c d, strSplitOn s '!' = [sheet, rng] ∧
            areaRefToCoordinates (removeDollar rng) = .ok (a, b, c, d) ∧
            ¬(a = c ∧ b = d)))
    ∧ (∀ (s sheet rng : String) (a b c d : Nat),
         strSplitOn s '!' = [sheet, rng] →
         areaRefToCoordinates (removeDollar rng) = .ok (a, b, c, d) →
         a = c → b = d → adjustRange s = .error "parameter is invalid")
    ∧ adjustRange "Sheet1!$A$1:$A$1" = .error "parameter is invalid" := by
  refine ⟨?_, ?_, by decide⟩
  · intro s
    constructor
    · rintro ⟨⟨sheet, x1, y1, x2, y2⟩, hv⟩
      obtain ⟨rng, a, b, c, d, hsplit, hparse, hne, _, _, _, _⟩ :=
        adjustRange_ok_inv s sheet x1 y1 x2 y2 hv
      exact ⟨sheet, rng, a, b, c, d, hsplit, hparse, hne⟩
    · rintro ⟨sheet, rng, a, b, c, d, hsplit, hparse, hne⟩
      exact ⟨_, adjustRange_ok_of_parse s sheet rng a b c d hsplit hparse hne⟩
  · intro s sheet rng a b c d hsplit hparse hac hbd
    rw [adjustRange, if_neg (strSplitOn_two_ne_empty s sheet rng hsplit)]
    split
    next sh rp heq =>
      rw [hsplit] at heq
      obtain ⟨rfl, rfl⟩ : sheet = sh ∧ rng = rp := by simpa using heq
      simp only [hparse]
      rw [if_pos ⟨hac, hbd⟩]
    next heq =>
      exact ((heq sheet rng hsplit).elim)

/-- Witness for C7: the characterization applied to the well-formed
two-corner input Sheet1!$B$2:$C$3, shown to succeed via the right-to-left
direction, and to the degenerate conjunct at Sheet1!$D$4:$D$4. -/
theorem adjustRange_error_iff_malformed_or_degenerate_witness :
    (∃ v, adjustRange "Sheet1!$B$2:$C$3" = .ok v)
      ∧ adjustRange "Sheet1!$D$4:$D$4" = .error "parameter is invalid" :=
  ⟨(adjustRange_error_iff_malformed_or_degenerate.1 "Sheet1!$B$2:$C$3").mpr
    ⟨"Sheet1", "$B$2:$C$3", 2, 2, 3, 3, by decide, by decide, by decide⟩,
   adjustRange_error_iff_malformed_or_degenerate.2.1 "Sheet1!$D$4:$D$4" "Sheet1" "$D$4:$D$4"
    4 4 4 4 (by decide) (by decide) rfl rfl⟩

theorem foldl_max_shift (l : List (Nat × String)) :
    ∀ acc : Nat,
      l.foldl (fun acc c => max acc c.1) acc
        = max acc (l.foldl (fun acc c => max acc c.1) 0) := by
  induction l with
  | nil => intro acc; simp
  | cons c rest ih =>
    intro acc
    simp only [List.foldl_cons]
    rw [ih (max acc c.1), ih (max 0 c.1)]
    omega

theorem foldl_if_gt_eq_max (l : List (Nat × String)) :
    ∀ acc : Nat,
      l.foldl (fun acc c => if c.1 > acc then c.1 else acc) acc
        = max acc (l.foldl (fun acc c => max acc c.1) 0) := by
  induction l with
  | nil => intro acc; simp
  | cons c rest ih =>
    intro acc
    simp only [List.foldl_cons]
    rw [ih (if c.1 > acc then c.1 else acc)]
    rw [foldl_max_shift rest (max 0 c.1)]
    have hite : (if c.1 > acc then c.1 else acc) = max acc c.1 := by
      split
      · omega
      · omega
    rw [hite]
    omega

/-- Counterexample for C3: on a fresh document with an empty pivot-cache
registry, the allocated workbook CacheID is 2, not the maximum existing
CacheID (zero over an empty registry) plus 1, because the scan of
addWorkbookPivotCache starts from 1 rather than 0 before incrementing. -/
theorem addWorkbookPivotCache_empty_registry_counterexample :
    ¬ ((addWorkbookPivotCache exampleFile 1).1 = maxRegisteredCacheID exampleFile + 1) := by
  decide

/-- C3 (amended): the workbook CacheID allocated for a new pivot table
equals max(1, maximum CacheID already registered) + 1; whenever some cache
with CacheID at least 1 is registered this coincides with
max-existing + 1, and each allocation leaves the registry with maximum at
least 1, so every successive call allocates max-existing + 1.  On an empty
(or entirely sub-1) registry the allocation is 2, not 1. -/
theorem addWorkbookPivotCache_max_floor_allocation :
    ∀ (f : File) (rid : Nat),
      (addWorkbookPivotCache f rid).1 = max 1 (maxRegisteredCacheID f) + 1
      ∧ (1 ≤ maxRegisteredCacheID f →
           (addWorkbookPivotCache f rid).1 = maxRegisteredCacheID f + 1)
      ∧ 1 ≤ maxRegisteredCacheID (addWorkbookPivotCache f rid).2 := by
  intro f rid
  have hmain : (addWorkbookPivotCache f rid).1 = max 1 (maxRegisteredCacheID f) + 1 := by
    simp only [addWorkbookPivotCache, maxRegisteredCacheID]
    rw [foldl_if_gt_eq_max]
  refine ⟨hmain, fun h => by rw [hmain]; omega, ?_⟩
  simp only [addWorkbookPivotCache, maxRegisteredCacheID, registeredCaches]
  simp only [List.foldl_append, List.foldl_cons, List.foldl_nil]
  rw [foldl_max_shift]
  omega

/-- Witness for C3 (amended): the allocation theorem applied to a document
whose registry holds CacheIDs 3 and 7: the allocated CacheID is 8, which
is both max(1, 7) + 1 and max-existing + 1. -/
theorem addWorkbookPivotCache_max_floor_allocation_witness :
    (addWorkbookPivotCache registryFile 2).1 = max 1 (maxRegisteredCacheID registryFile) + 1
      ∧ (addWorkbookPivotCache registryFile 2).1 = maxRegisteredCacheID registryFile + 1 :=
  ⟨(addWorkbookPivotCache_max_floor_allocation registryFile 2).1,
   (addWorkbookPivotCache_max_floor_allocation registryFile 2).2.1 (by decide)⟩

theorem addPivotColFields_counts (f : File) (o : PivotTableOption) (cf : xlsxColFields)
    (h : addPivotColFields f o = .ok (some cf)) : cf.Count = cf.Field.length := by
  rw [addPivotColFields] at h
  split at h
  · simp at h
  · split at h
    next e heq => exact Except.noConfusion h
    next idx heq =>
      simp only [Except.ok.injEq, Option.some.injEq] at h
      subst h
      simp

theorem addPivotCache_ok_inv (f : File) (xml : String) (o : PivotTableOption)
    (pc : xlsxPivotCacheDefinition) (f' : File)
    (h : addPivotCache f xml o = .ok (pc, f')) :
    pc.CacheFields.Count = pc.CacheFields.CacheField.length
    ∧ f' = { f with XLSX := f.XLSX ++ [(xml, .cacheDef pc)] } := by
  rw [addPivotCache] at h
  split at h
  next e heq => exact Except.noConfusion h
  next ds x1 y1 x2 y2 heq =>
    split at h
    next e heq2 => exact Except.noConfusion h
    next order heq2 =>
      simp only [Except.ok.injEq, Prod.mk.injEq] at h
      obtain ⟨hpc, hf⟩ := h
      subst hpc
      exact ⟨by simp, hf.symm⟩

theorem addPivotTable_ok_inv (f : File) (cid tid : Nat) (xml : String) (o : PivotTableOption)
    (pt : xlsxPivotTableDefinition) (f' : File)
    (h : addPivotTable f cid tid xml o = .ok (pt, f')) :
    pt.PivotFields.Count = pt.PivotFields.PivotField.length
    ∧ pt.RowFields.Count = pt.RowFields.Field.length
    ∧ (∀ cf, pt.ColFields = some cf → cf.Count = cf.Field.length)
    ∧ pt.DataFields.Count = pt.DataFields.DataField.length
    ∧ f' = { f with XLSX := f.XLSX ++ [(xml, .tableDef pt)] } := by
  rw [addPivotTable] at h
  split at h
  next e heq => exact Except.noConfusion h
  next sh x1 y1 x2 y2 heq =>
    split at h
    next e h2 => exact Except.noConfusion h
    next pfl h2 =>
      split at h
      next e h3 => exact Except.noConfusion h
      next rfi h3 =>
        split at h
        next e h4 => exact Except.noConfusion h
        next cfo h4 =>
          split at h
          next e h5 => exact Except.noConfusion h
          next dfi h5 =>
            simp only [Except.ok.injEq, Prod.mk.injEq] at h
            obtain ⟨hpt, hf⟩ := h
            subst hpt
            refine ⟨by simp, by simp, ?_, by simp, hf.symm⟩
            intro cf hcf
            refine addPivotColFields_counts f o cf ?_
            rw [h4]
            simp only at hcf
            rw [hcf]

/-- C10: in every cache definition and table definition the builders
produce, each emitted Count attribute equals the number of entries of the
list it describes: CacheFields.Count the number of cache fields,
PivotFields.Count the number of classified pivot fields, RowFields.Count
the number of row-field indices, ColFields.Count (when the section is
present) the number of column-field indices, and DataFields.Count the
number of data-field entries. -/
theorem emitted_counts_equal_list_lengths :
    (∀ (f : File) (xml : String) (o : PivotTableOption)
       (pc : xlsxPivotCacheDefinition) (f' : File),
       addPivotCache f xml o = .ok (pc, f') →
       pc.CacheFields.Count = pc.CacheFields.CacheField.length)
    ∧ (∀ (f : File) (cid tid : Nat) (xml : String) (o : PivotTableOption)
         (pt : xlsxPivotTableDefinition) (f' : File),
         addPivotTable f cid tid xml o = .ok (pt, f') →
         pt.PivotFields.Count = pt.PivotFields.PivotField.length
         ∧ pt.RowFields.Count = pt.RowFields.Field.length
         ∧ (∀ cf, pt.ColFields = some cf → cf.Count = cf.Field.length)
         ∧ pt.DataFields.Count = pt.DataFields.DataField.length) := by
  constructor
  · intro f xml o pc f' h
    exact (addPivotCache_ok_inv f xml o pc f' h).1
  · intro f cid tid xml o pt f' h
    obtain ⟨h1, h2, h3, h4, _⟩ := addPivotTable_ok_inv f cid tid xml o pt f' h
    exact ⟨h1, h2, h3, h4⟩

/-- Witness for C10: the count theorem applied to the cache and table
definitions built for the worked example, each builder application
discharged by rfl. -/
theorem emitted_counts_equal_list_lengths_witness :
    examplePC.CacheFields.Count = examplePC.CacheFields.CacheField.length
      ∧ examplePT.PivotFields.Count = examplePT.PivotFields.PivotField.length
      ∧ examplePT.DataFields.Count = examplePT.DataFields.DataField.length :=
  ⟨emitted_counts_equal_list_lengths.1 exampleFile "xl/pivotCache/pivotCacheDefinition1.xml"
     exampleOpt examplePC
     { exampleFile with
       XLSX := [("xl/pivotCache/pivotCacheDefinition1.xml", .cacheDef examplePC)] } rfl,
   (emitted_counts_equal_list_lengths.2 exampleFile 2 1 "xl/pivotTables/pivotTable1.xml"
     exampleOpt examplePT
     { exampleFile with
       XLSX := [("xl/pivotTables/pivotTable1.xml", .tableDef examplePT)] } rfl).1,
   (emitted_counts_equal_list_lengths.2 exampleFile 2 1 "xl/pivotTables/pivotTable1.xml"
     exampleOpt examplePT
     { exampleFile with
       XLSX := [("xl/pivotTables/pivotTable1.xml", .tableDef examplePT)] } rfl).2.2.2⟩

theorem addRels_preserves_XLSX (f : File) (a b c : String) :
    ((addRels f a b c).2).XLSX = f.XLSX := rfl

theorem addWorkbookPivotCache_preserves_XLSX (f : File) (r : Nat) :
    ((addWorkbookPivotCache f r).2).XLSX = f.XLSX := rfl

theorem addContentTypePart_preserves_XLSX (f : File) (i : Nat) (t : String) :
    (addContentTypePart f i t).XLSX = f.XLSX := rfl

theorem AddPivotTable_success_appends_parts (f : File) (o : PivotTableOption)
    (h : (AddPivotTable f (some o)).1 = .ok ()) :
    ∃ pc pt, (AddPivotTable f (some o)).2.XLSX =
      f.XLSX ++
        [("xl/pivotCache/pivotCacheDefinition" ++ toString (countPivotCache f + 1) ++ ".xml",
          PartContent.cacheDef pc),
         ("xl/pivotTables/pivotTable" ++ toString (countPivotTables f + 1) ++ ".xml",
          PartContent.tableDef pt)] := by
  simp only [AddPivotTable] at h ⊢
  cases hparse : parseFormatPivotTableSet f (some o) with
  | error e => simp [hparse] at h
  | ok path =>
    simp only [hparse] at h ⊢
    cases hcache : addPivotCache f
        ("xl/pivotCache/pivotCacheDefinition" ++ toString (countPivotCache f + 1) ++ ".xml") o with
    | error e => simp [hcache] at h
    | ok pr =>
      obtain ⟨pc, f1⟩ := pr
      simp only [hcache] at h ⊢
      cases hptb : addPivotTable
          (addRels
            (addWorkbookPivotCache
              (addRels f1 "xl/_rels/workbook.xml.rels" SourceRelationshipPivotCache
                ("pivotCache/pivotCacheDefinition" ++ toString (countPivotCache f + 1) ++ ".xml")).2
              (addRels f1 "xl/_rels/workbook.xml.rels" SourceRelationshipPivotCache
                ("pivotCache/pivotCacheDefinition" ++ toString (countPivotCache f + 1) ++ ".xml")).1).2
            ("xl/pivotTables/_rels/pivotTable" ++ toString (countPivotTables f + 1) ++ ".xml.rels")
            SourceRelationshipPivotCache
            ("../pivotCache/pivotCacheDefinition" ++ toString (countPivotCache f + 1) ++ ".xml")).2
          (addWorkbookPivotCache
            (addRels f1 "xl/_rels/workbook.xml.rels" SourceRelationshipPivotCache
              ("pivotCache/pivotCacheDefinition" ++ toString (countPivotCache f + 1) ++ ".xml")).2
            (addRels f1 "xl/_rels/workbook.xml.rels" SourceRelationshipPivotCache
              ("pivotCache/pivotCacheDefinition" ++ toString (countPivotCache f + 1) ++ ".xml")).1).1
          (countPivotTables f + 1)
          ("xl/pivotTables/pivotTable" ++ toString (countPivotTables f + 1) ++ ".xml") o with
    | error e => simp [hptb] at h
    | ok qr =>
      obtain ⟨pt, f5⟩ := qr
      simp only [hptb] at h ⊢
      refine ⟨pc, pt, ?_⟩
      have hf1 := (addPivotCache_ok_inv f _ o pc f1 hcache).2
      have hf5 := (addPivotTable_ok_inv _ _ _ _ o pt f5 hptb).2.2.2.2
      rw [addContentTypePart_preserves_XLSX, addContentTypePart_preserves_XLSX,
        addRels_preserves_XLSX, hf5]
      simp only [addRels_preserves_XLSX, addWorkbookPivotCache_preserves_XLSX]
      rw [hf1]
      simp

/-- C4: the file-suffix identifiers for the new table part and the new
cache part each equal the count of existing parts whose path matches the
respective pattern plus 1 (count-based, not max-of-suffix based): every
successful build appends exactly the cache part numbered
countPivotCache + 1 and the table part numbered countPivotTables + 1, and
two successive build calls on a fresh document allocate suffix numbers 1
and then 2. -/
theorem file_suffix_ids_count_based :
    (∀ (f : File) (o : PivotTableOption),
       (AddPivotTable f (some o)).1 = .ok () →
       ∃ pc pt, (AddPivotTable f (some o)).2.XLSX =
         f.XLSX ++
           [("xl/pivotCache/pivotCacheDefinition" ++ toString (countPivotCache f + 1) ++ ".xml",
             PartContent.cacheDef pc),
            ("xl/pivotTables/pivotTable" ++ toString (countPivotTables f + 1) ++ ".xml",
             PartContent.tableDef pt)])
    ∧ countPivotTables exampleFile = 0
    ∧ countPivotCache exampleFile = 0
    ∧ (AddPivotTable exampleFile (some exampleOpt)).2.XLSX.map Prod.fst =
        ["xl/pivotCache/pivotCacheDefinition1.xml", "xl/pivotTables/pivotTable1.xml"]
    ∧ (AddPivotTable (AddPivotTable exampleFile (some exampleOpt)).2
        (some exampleOpt)).2.XLSX.map Prod.fst =
        ["xl/pivotCache/pivotCacheDefinition1.xml", "xl/pivotTables/pivotTable1.xml",
         "xl/pivotCache/pivotCacheDefinition2.xml", "xl/pivotTables/pivotTable2.xml"] :=
  ⟨AddPivotTable_success_appends_parts, by decide, by decide, by decide, by decide⟩

/-- Witness for C4: the count-based allocation conjunct applied to the
fresh worked example document, whose successful build appends parts at the
count-plus-one suffix paths. -/
theorem file_suffix_ids_count_based_witness :
    (AddPivotTable exampleFile (some exampleOpt)).2.XLSX.map Prod.fst =
      exampleFile.XLSX.map Prod.fst ++
        ["xl/pivotCache/pivotCacheDefinition" ++ toString (countPivotCache exampleFile + 1) ++ ".xml",
         "xl/pivotTables/pivotTable" ++ toString (countPivotTables exampleFile + 1) ++ ".xml"] := by
  obtain ⟨pc, pt, hs⟩ := file_suffix_ids_count_based.1 exampleFile exampleOpt (by decide)
  rw [hs]
  simp

/-- C8: if the top-level build fails during parameter validation (missing
option, malformed DataRange, malformed PivotTableRange, or a
PivotTableRange naming a sheet absent from the sheet map), it returns the
corresponding error and the resulting document state is exactly the input
state: no part, relationship, registry or content-type entry is touched. -/
theorem validation_failure_leaves_document_unchanged :
    ∀ f : File,
      AddPivotTable f none = (.error "parameter is required", f)
      ∧ (∀ (o : PivotTableOption) (e : String),
           parseFormatPivotTableSet f (some o) = .error e →
           AddPivotTable f (some o) = (.error e, f))
      ∧ (∀ (o : PivotTableOption) (e : String),
           adjustRange o.DataRange = .error e →
           AddPivotTable f (some o) = (.error ("parameter DataRange parsing error: " ++ e), f))
      ∧ (∀ (o : PivotTableOption) (v : String × Nat × Nat × Nat × Nat) (e : String),
           adjustRange o.DataRange = .ok v →
           adjustRange o.PivotTableRange = .error e →
           AddPivotTable f (some o) = (.error ("parameter PivotTableRange parsing error: " ++ e), f))
      ∧ (∀ (o : PivotTableOption) (dsn : String) (dc : Nat × Nat × Nat × Nat)
           (ptn : String) (ptc : Nat × Nat × Nat × Nat) (p : String),
           adjustRange o.DataRange = .ok (dsn, dc) →
           adjustRange o.PivotTableRange = .ok (ptn, ptc) →
           (f.sheetMap).lookup (trimSheetName dsn) = some p →
           (f.sheetMap).lookup (trimSheetName ptn) = none →
           AddPivotTable f (some o) = (.error ("sheet " ++ ptn ++ " is not exist"), f)) := by
  intro f
  have hgen : ∀ (o : PivotTableOption) (e : String),
      parseFormatPivotTableSet f (some o) = .error e →
      AddPivotTable f (some o) = (.error e, f) := by
    intro o e hp
    simp [AddPivotTable, hp]
  refine ⟨rfl, hgen, ?_, ?_, ?_⟩
  · intro o e hd
    refine hgen o _ ?_
    simp [parseFormatPivotTableSet, hd]
  · intro o v e hdok hpt
    refine hgen o _ ?_
    obtain ⟨dsn, dc⟩ := v
    simp [parseFormatPivotTableSet, hdok, hpt]
  · intro o dsn dc ptn ptc p hdok hptok hds hpt
    refine hgen o _ ?_
    simp [parseFormatPivotTableSet, hdok, hptok, workSheetReader, hds, hpt]

/-- Witness for C8: the validation theorem applied to the worked example
document with a missing option, a malformed DataRange, and a
PivotTableRange naming the absent sheet SheetX. -/
theorem validation_failure_leaves_document_unchanged_witness :
    AddPivotTable exampleFile none = (.error "parameter is required", exampleFile)
      ∧ AddPivotTable exampleFile
          (some { exampleOpt with DataRange := "bad" }) =
          (.error ("parameter DataRange parsing error: " ++ "parameter is invalid"), exampleFile)
      ∧ AddPivotTable exampleFile
          (some { exampleOpt with PivotTableRange := "SheetX!$G$2:$M$34" }) =
          (.error ("sheet " ++ "SheetX" ++ " is not exist"), exampleFile) :=
  ⟨(validation_failure_leaves_document_unchanged exampleFile).1,
   (validation_failure_leaves_document_unchanged exampleFile).2.2.1
     { exampleOpt with DataRange := "bad" } "parameter is invalid" (by decide),
   (validation_failure_leaves_document_unchanged exampleFile).2.2.2.2
     { exampleOpt with PivotTableRange := "SheetX!$G$2:$M$34" }
     "Sheet1" (1, 1, 5, 31) "SheetX" (7, 2, 13, 34) "xl/worksheets/sheet1.xml"
     (by decide) (by decide) (by decide) (by decide)⟩

/-- C9: the Page field list is accepted but never consulted: for any two
options that agree on DataRange, PivotTableRange, Rows, Columns and Data
and differ only in Page, the build operation returns identical outcomes
and identical document states (same parts, same relationships, same
registry and content-type entries). -/
theorem page_list_inert :
    ∀ (f : File) (o1 o2 : PivotTableOption),
      o1.DataRange = o2.DataRange →
      o1.PivotTableRange = o2.PivotTableRange →
      o1.Rows = o2.Rows →
      o1.Columns = o2.Columns →
      o1.Data = o2.Data →
      AddPivotTable f (some o1) = AddPivotTable f (some o2) := by
  intro f o1 o2 h1 h2 h3 h4 h5
  obtain ⟨dr1, pr1, r1, c1, d1, p1⟩ := o1
  obtain ⟨dr2, pr2, r2, c2, d2, p2⟩ := o2
  simp only at h1 h2 h3 h4 h5
  subst h1
  subst h2
  subst h3
  subst h4
  subst h5
  rfl

/-- Witness for C9: the inertness theorem applied to the worked example
with two different Page lists. -/
theorem page_list_inert_witness :
    AddPivotTable exampleFile (some { exampleOpt with Page := ["Region"] }) =
      AddPivotTable exampleFile (some { exampleOpt with Page := ["Month", "Year"] }) :=
  page_list_inert exampleFile { exampleOpt with Page := ["Region"] }
    { exampleOpt with Page := ["Month", "Year"] } rfl rfl rfl rfl rfl
